import Mathlib

/-!
Verification of the a2a-dynatrace agent (Python sources: `agent_executor.py`,
`dynatrace_agent.py`, `dynatrace_client.py`) against its natural-language
specification.  The Python code is shallowly embedded: strings are `String`,
Python `in` (substring test) is `pyContains`, the `re` patterns actually used
by the code are embedded as bespoke executable matchers with Python
`re.search` semantics (leftmost match, greedy quantifiers, `\b` word
boundaries, `re.IGNORECASE`), dictionaries are ordered association lists, and
the HTTP / LLM layers are abstracted as explicit inputs (response payloads,
per-model outcomes).
-/

namespace A2ADynatrace

/-- Python `needle in hay` on two lists: `needle` occurs contiguously. -/
def leadMatch : List Char → List Char → Bool
  | [], _ => true
  | _ :: _, [] => false
  | x :: xs, y :: ys => x = y && leadMatch xs ys

/-- Scan all suffixes of the haystack for the needle. -/
def subMatch (needle : List Char) : List Char → Bool
  | [] => needle.isEmpty
  | c :: rest => leadMatch needle (c :: rest) || subMatch needle rest

/-- Embedding of Python's substring operator `needle in hay`. -/
def pyContains (hay needle : String) : Bool :=
  subMatch needle.data hay.data

/-- Python `s.lower()` (ASCII). -/
def pyLower (s : String) : String :=
  String.mk (s.data.map Char.toLower)

/-- Python `s.upper()` (ASCII). -/
def pyUpper (s : String) : String :=
  String.mk (s.data.map Char.toUpper)

/-- Python `s.strip()`: remove leading and trailing whitespace. -/
def pyStrip (s : String) : String :=
  String.mk (((s.data.dropWhile Char.isWhitespace).reverse.dropWhile
    Char.isWhitespace).reverse)

/-- Python `s.startswith(pre)`. -/
def pyStartsWith (s pre : String) : Bool :=
  leadMatch pre.data s.data

/-- Embedding of Python's `any(w in hay for w in ws)`. -/
def anyContains (hay : String) (ws : List String) : Bool :=
  ws.any (fun w => pyContains hay w)

/-- Python `s[:k]` on a string: the first `k` code points. -/
def pyTrunc (s : String) (k : Nat) : String :=
  String.mk (s.data.take k)

/-- Python word character for `\b` boundaries (`[A-Za-z0-9_]` on ASCII input). -/
def isWordChar (c : Char) : Bool :=
  c.isAlphanum || c = '_'

/-- Case-insensitive literal match (`lit` given lowercase); returns the rest
of the input on success. -/
def litCI : List Char → List Char → Option (List Char)
  | [], cs => some cs
  | _ :: _, [] => none
  | l :: ls, c :: cs => if c.toLower = l then litCI ls cs else none

/-- Decimal digit run to a natural number (Python `int` on the match group). -/
def digitsToNat (ds : List Char) : Nat :=
  ds.foldl (fun a c => 10 * a + (c.toNat - '0'.toNat)) 0

/-! ### `DynatraceAgentExecutor._extract_problem_id` (agent_executor.py)

Three `re.search` patterns with `re.IGNORECASE`, tried in order:
`\b(P-\d+)\b`, `\bproblem\s+(?:id\s+)?[#]?(\d+)\b`, `\b([A-Z0-9_-]+_\d+V\d+)\b`.
Each matcher below takes `prevWord` (whether the character before the current
position is a word character, for `\b`) and the remaining input. -/

/-- Try `\b(P-\d+)\b` at the current position. -/
def matchP1 (prevWord : Bool) : List Char → Option String
  | c :: '-' :: rest =>
    if (c = 'P' || c = 'p') && !prevWord then
      let ds := rest.takeWhile Char.isDigit
      if ds.isEmpty then none
      else
        let after := rest.dropWhile Char.isDigit
        let boundary := match after with
          | [] => true
          | a :: _ => !isWordChar a
        if boundary then some (String.mk (c :: '-' :: ds)) else none
    else none
  | _ => none

/-- Digits then a trailing `\b`; shared tail of pattern 2. -/
def digitsThenBoundary (r : List Char) : Option String :=
  let ds := r.takeWhile Char.isDigit
  if ds.isEmpty then none
  else
    match r.dropWhile Char.isDigit with
    | [] => some (String.mk ds)
    | a :: _ => if isWordChar a then none else some (String.mk ds)

/-- `[#]?(\d+)\b`: optional hash then digits (a consumed `#` never needs to be
given back, since the alternative would have to read the `#` as a digit). -/
def hashDigits (r : List Char) : Option String :=
  match r with
  | '#' :: t => digitsThenBoundary t
  | t => digitsThenBoundary t

/-- Try `\bproblem\s+(?:id\s+)?[#]?(\d+)\b` at the current position. -/
def matchP2 (prevWord : Bool) (cs : List Char) : Option String :=
  if prevWord then none
  else
    match litCI "problem".data cs with
    | none => none
    | some r1 =>
      if (r1.takeWhile Char.isWhitespace).isEmpty then none
      else
        let r2 := r1.dropWhile Char.isWhitespace
        match litCI "id".data r2 with
        | some r3 =>
          if (r3.takeWhile Char.isWhitespace).isEmpty then
            hashDigits r2
          else
            match hashDigits (r3.dropWhile Char.isWhitespace) with
            | some g => some g
            | none => hashDigits r2
        | none => hashDigits r2

/-- Character class `[A-Z0-9_-]` under `re.IGNORECASE`. -/
def isIdClassChar (c : Char) : Bool :=
  c.isAlphanum || c = '_' || c = '-'

/-- Backtracking over the length `t` consumed by `[A-Z0-9_-]+` (greedy, so
tried from the maximal run length downwards), then `_\d+V\d+\b`. -/
def p3Try (cs : List Char) : Nat → Option String
  | 0 => none
  | t' + 1 =>
    let t := t' + 1
    match cs.drop t with
    | '_' :: r =>
      let ds1 := r.takeWhile Char.isDigit
      if ds1.isEmpty then p3Try cs t'
      else
        match r.dropWhile Char.isDigit with
        | v :: r2 =>
          if v = 'V' || v = 'v' then
            let ds2 := r2.takeWhile Char.isDigit
            if ds2.isEmpty then p3Try cs t'
            else
              let after := r2.dropWhile Char.isDigit
              let boundary := match after with
                | [] => true
                | a :: _ => !isWordChar a
              if boundary then
                some (String.mk (cs.take t ++ '_' :: (ds1 ++ v :: ds2)))
              else p3Try cs t'
          else p3Try cs t'
        | [] => p3Try cs t'
    | _ => p3Try cs t'

/-- Try `\b([A-Z0-9_-]+_\d+V\d+)\b` at the current position. -/
def matchP3 (prevWord : Bool) (cs : List Char) : Option String :=
  match cs with
  | [] => none
  | c0 :: _ =>
    if isWordChar c0 = prevWord then none
    else
      let n := (cs.takeWhile isIdClassChar).length
      p3Try cs n

/-- `re.search`: scan every start position (leftmost match wins), tracking
whether the previous character was a word character. -/
def searchPat (m : Bool → List Char → Option String) (prevWord : Bool) :
    List Char → Option String
  | [] => none
  | c :: rest =>
    match m prevWord (c :: rest) with
    | some r => some r
    | none => searchPat m (isWordChar c) rest

/-- `DynatraceAgentExecutor._extract_problem_id`: the three patterns tried in
order on the original (non-lowercased) query. -/
def extractProblemId (query : String) : Option String :=
  match searchPat matchP1 false query.data with
  | some r => some r
  | none =>
    match searchPat matchP2 false query.data with
    | some r => some r
    | none => searchPat matchP3 false query.data

/-! ### `DynatraceAgentExecutor._extract_time_range` (agent_executor.py)

Nine ordered `re.search` patterns (`re.IGNORECASE`); the first pattern that
matches anywhere in the query wins, independent of textual position. -/

/-- Try `lit\s+(\d+)\s*unit` at the current position (covers the
`last/past … h/d/w` patterns; the optional `(?:our|ay|eek)?s?` tails after the
unit letter never affect whether the pattern matches). -/
def matchUnitNum (lit : String) (unit : Char) (cs : List Char) : Option String :=
  match litCI lit.data cs with
  | none => none
  | some r1 =>
    if (r1.takeWhile Char.isWhitespace).isEmpty then none
    else
      let r2 := r1.dropWhile Char.isWhitespace
      let ds := r2.takeWhile Char.isDigit
      if ds.isEmpty then none
      else
        match (r2.dropWhile Char.isDigit).dropWhile Char.isWhitespace with
        | c :: _ => if c = unit then some (String.mk ds) else none
        | [] => none

/-- Try `(\d+)\s*unit(?:unitWord)?s?\s+ago` at the current position. -/
def matchAgo (unit : Char) (unitWord : String) (cs : List Char) : Option String :=
  let ds := cs.takeWhile Char.isDigit
  if ds.isEmpty then none
  else
    match (cs.dropWhile Char.isDigit).dropWhile Char.isWhitespace with
    | c :: r2 =>
      if c = unit then
        let r3 := match litCI unitWord.data r2 with
          | some rr => rr
          | none => r2
        let r4 := match r3 with
          | 's' :: t => t
          | t => t
        if (r4.takeWhile Char.isWhitespace).isEmpty then none
        else
          match litCI "ago".data (r4.dropWhile Char.isWhitespace) with
          | some _ => some (String.mk ds)
          | none => none
      else none
    | [] => none

/-- Try the literal `today` at the current position. -/
def matchToday (cs : List Char) : Option String :=
  match litCI "today".data cs with
  | some _ => some "24h"
  | none => none

/-- Try `this\s+week` at the current position. -/
def matchThisWeek (cs : List Char) : Option String :=
  match litCI "this".data cs with
  | none => none
  | some r1 =>
    if (r1.takeWhile Char.isWhitespace).isEmpty then none
    else
      match litCI "week".data (r1.dropWhile Char.isWhitespace) with
      | some _ => some "7d"
      | none => none

/-- `re.search` for a pattern without word-boundary assertions. -/
def searchPlain (m : List Char → Option String) : List Char → Option String
  | [] => none
  | c :: rest =>
    match m (c :: rest) with
    | some r => some r
    | none => searchPlain m rest

/-- `DynatraceAgentExecutor._extract_time_range`: nine patterns in priority
order, default `"24h"`. -/
def extractTimeRange (query : String) : String :=
  let cs := (pyLower query).data
  match searchPlain (matchUnitNum "last" 'h') cs with
  | some d => d ++ "h"
  | none =>
  match searchPlain (matchUnitNum "last" 'd') cs with
  | some d => d ++ "d"
  | none =>
  match searchPlain (matchUnitNum "last" 'w') cs with
  | some d => toString (digitsToNat d.data * 7) ++ "d"
  | none =>
  match searchPlain (matchUnitNum "past" 'h') cs with
  | some d => d ++ "h"
  | none =>
  match searchPlain (matchUnitNum "past" 'd') cs with
  | some d => d ++ "d"
  | none =>
  match searchPlain (matchAgo 'h' "our") cs with
  | some d => d ++ "h"
  | none =>
  match searchPlain (matchAgo 'd' "ay") cs with
  | some d => d ++ "d"
  | none =>
  match searchPlain matchToday cs with
  | some _ => "24h"
  | none =>
  match searchPlain matchThisWeek cs with
  | some d => d
  | none => "24h"

/-! ### `DynatraceAgentExecutor._parse_intent` (agent_executor.py) -/

/-- `entity_mappings` of `_extract_entity_type` (insertion order preserved). -/
def entityMappings : List (String × String) :=
  [("service", "SERVICE"), ("services", "SERVICE"),
   ("host", "HOST"), ("hosts", "HOST"),
   ("server", "HOST"), ("servers", "HOST"),
   ("process", "PROCESS_GROUP"), ("processes", "PROCESS_GROUP"),
   ("application", "APPLICATION"), ("applications", "APPLICATION"),
   ("database", "DATABASE"), ("databases", "DATABASE")]

/-- `metric_mappings` of `_extract_metric_type` (insertion order preserved). -/
def executorMetricMappings : List (String × String) :=
  [("cpu", "cpu"), ("processor", "cpu"),
   ("memory", "memory"), ("ram", "memory"),
   ("disk", "disk"), ("storage", "disk"),
   ("response time", "response_time"), ("latency", "response_time"),
   ("error rate", "error_rate"), ("errors", "error_rate"),
   ("throughput", "throughput"), ("requests", "throughput"),
   ("availability", "availability"), ("uptime", "availability"),
   ("network", "network"), ("traffic", "network")]

/-- First mapping whose keyword occurs in the lowercased query. -/
def firstValueContained (m : List (String × String)) (ql : String) : Option String :=
  match m with
  | [] => none
  | (k, v) :: rest =>
    if pyContains ql k then some v else firstValueContained rest ql

/-- `DynatraceAgentExecutor._extract_entity_type`. -/
def extractEntityType (query : String) : Option String :=
  firstValueContained entityMappings (pyLower query)

/-- `DynatraceAgentExecutor._extract_metric_type`. -/
def extractMetricType (query : String) : Option String :=
  firstValueContained executorMetricMappings (pyLower query)

/-- Trigger words of the analyze-problem rule. -/
def analysisVerbs : List String :=
  ["analyze", "detail", "investigate", "what", "explain", "tell me about"]

/-- Trigger phrases of the root-cause-analysis rule. -/
def rootCausePhrases : List String :=
  ["root cause", "rca", "why is", "what caused", "investigate"]

/-- Trigger words of the list-problems rule. -/
def problemWords : List String :=
  ["problem", "problems", "alert", "alerts", "issue", "issues", "incident"]

/-- Trigger words of the topology rule. -/
def topologyWords : List String :=
  ["topology", "dependencies", "architecture", "map"]

/-- Trigger phrases of the second topology rule. -/
def listServicePhrases : List String :=
  ["list services", "show services", "all services",
   "list hosts", "show hosts", "all hosts"]

/-- Trigger words of the metrics rule. -/
def metricWords : List String :=
  ["metric", "metrics", "performance", "usage"]

/-- Trigger words of the deployments rule. -/
def deployWords : List String :=
  ["deploy", "deployment", "deployments", "release", "releases",
   "change", "changes"]

/-- Trigger phrases of the health-summary rule. -/
def healthWords : List String :=
  ["health", "status", "overview", "summary", "how is", "how\x27s", "dashboard"]

/-- The skill/parameter pair `_parse_intent` returns. -/
inductive Intent where
  | analyzeProblem (problem_id : String)
  | rootCauseAnalysis (problem_id : Option String) (symptoms : Option String)
  | listProblems (status : Option String) (severity : Option String)
      (time_range : String)
  | getTopology (entity_type : String)
  | queryMetrics (metric : String) (entity_type : Option String)
      (time_range : String)
  | getDeployments (time_range : String)
  | healthSummary
  | query (question : String)
  deriving DecidableEq, Repr

/-- The skill-name component of the returned tuple. -/
def Intent.skill : Intent → String
  | .analyzeProblem _ => "analyze_problem"
  | .rootCauseAnalysis _ _ => "root_cause_analysis"
  | .listProblems _ _ _ => "list_problems"
  | .getTopology _ => "get_topology"
  | .queryMetrics _ _ _ => "query_metrics"
  | .getDeployments _ => "get_deployments"
  | .healthSummary => "health_summary"
  | .query _ => "query"

/-- `DynatraceAgentExecutor._parse_intent`: the ordered rule cascade. -/
def parseIntent (query : String) : Intent :=
  let ql := pyStrip (pyLower query)
  match extractProblemId query, anyContains ql analysisVerbs with
  | some p, true => .analyzeProblem p
  | pid, _ =>
    if anyContains ql rootCausePhrases then
      .rootCauseAnalysis pid (if pid.isSome then none else some query)
    else if anyContains ql problemWords then
      let status :=
        if pyContains ql "open" then some "OPEN"
        else if pyContains ql "closed" then some "CLOSED" else none
      let severity :=
        if pyContains ql "critical" || pyContains ql "availability" then
          some "AVAILABILITY"
        else if pyContains ql "error" then some "ERROR"
        else if pyContains ql "performance" || pyContains ql "slow" then
          some "PERFORMANCE"
        else none
      .listProblems status severity (extractTimeRange query)
    else if anyContains ql topologyWords then
      .getTopology ((extractEntityType query).getD "SERVICE")
    else if anyContains ql listServicePhrases then
      .getTopology ((extractEntityType query).getD "SERVICE")
    else
      match extractMetricType query with
      | some mt => .queryMetrics mt (extractEntityType query) (extractTimeRange query)
      | none =>
        if anyContains ql metricWords then
          .queryMetrics "cpu" (extractEntityType query) (extractTimeRange query)
        else if anyContains ql deployWords then
          .getDeployments (extractTimeRange query)
        else if anyContains ql healthWords then
          .healthSummary
        else
          .query query

/-! ### `DynatraceAgent._ai_analyze` (dynatrace_agent.py)

The Gemini call is abstracted as a per-model outcome function: each model
name either yields a response text or raises with an error string. -/

/-- Outcome of `genai_client.models.generate_content` for one model. -/
inductive LlmOutcome where
  | success (text : String)
  | failure (err : String)

/-- The rate-limit classification: `"429" in error_str or
"RESOURCE_EXHAUSTED" in error_str`. -/
def isRateLimitError (e : String) : Bool :=
  pyContains e "429" || pyContains e "RESOURCE_EXHAUSTED"

/-- `models_to_try = [self.model, "gemini-1.5-flash", "gemini-1.5-pro"]`. -/
def modelsToTry (primary : String) : List String :=
  [primary, "gemini-1.5-flash", "gemini-1.5-pro"]

/-- The soft notice returned when the last model is also rate-limited. -/
def rateLimitNotice : String :=
  "⚠️ AI analysis temporarily unavailable (rate limit). Dynatrace data shown above."

/-- The retry loop of `_ai_analyze`: `lastModel` is `models_to_try[-1]`. -/
def aiAnalyzeLoop (lastModel : String) (f : String → LlmOutcome) :
    List String → String
  | [] => "⚠️ AI analysis unavailable"
  | m :: rest =>
    match f m with
    | .success t => pyStrip t
    | .failure e =>
      if isRateLimitError e then
        if m ≠ lastModel then aiAnalyzeLoop lastModel f rest
        else rateLimitNotice
      else "AI analysis error: " ++ pyTrunc e 100

/-- `DynatraceAgent._ai_analyze` result, given the primary model name and the
per-model outcomes. -/
def aiAnalyze (primary : String) (f : String → LlmOutcome) : String :=
  aiAnalyzeLoop ((modelsToTry primary).getLastD "") f (modelsToTry primary)

/-- The combined prompt `_ai_analyze` submits (persona header, context,
instruction). -/
def fullPrompt (prompt context : String) : String :=
  "You are an expert SRE/DevOps engineer analyzing Dynatrace monitoring data.\nProvide concise, actionable insights.\n\n"
    ++ context ++ "\n\n" ++ prompt

/-! ### Prompt-context construction at the `_ai_analyze` call sites
(dynatrace_agent.py).  `json.dumps` of the gathered data is abstracted as an
input string; what is verified is how each skill embeds it. -/

/-- `ai_context` built by `DynatraceAgent.analyze_problem`: the serialized
evidence (`json.dumps(evidence_list[:3], indent=2)` when evidence exists,
else the literal `None`) is interpolated with NO truncation. -/
def analyzeProblemAiContext (title severity impact : String)
    (affectedCount evidenceCount : Nat) (evidenceJson : Option String) : String :=
  "\nProblem: " ++ title
    ++ "\nSeverity: " ++ severity
    ++ "\nImpact: " ++ impact
    ++ "\nAffected Entities: " ++ toString affectedCount
    ++ "\nEvidence Count: " ++ toString evidenceCount
    ++ "\n\nEvidence Details:\n" ++ evidenceJson.getD "None" ++ "\n"

/-- The serialized-context segment of the `root_cause_analysis` prompt:
`json.dumps(context_data, indent=2, default=str)[:4000]`. -/
def rcaContextSegment (serialized : String) : String :=
  pyTrunc serialized 4000

/-- `ai_prompt` built by `DynatraceAgent.root_cause_analysis`. -/
def rcaPrompt (symptoms : Option String) (serialized : String) : String :=
  "\nAnalyze the following Dynatrace monitoring data and provide a comprehensive root cause analysis.\n\n"
    ++ (match symptoms with
        | some s => "Symptoms reported: " ++ s
        | none => "")
    ++ "\n\nMonitoring Data:\n"
    ++ rcaContextSegment serialized
    ++ "\n\nProvide a structured analysis with:\n\n## 🔍 Root Cause Analysis\n\n### Primary Cause\n[Identify the most likely root cause]\n\n### Contributing Factors\n[List secondary factors that may have contributed]\n\n### Evidence Chain\n[Connect the dots between symptoms and root cause]\n\n## 📊 Impact Assessment\n[Describe the scope and severity of impact]\n\n## 🛠️ Recommended Actions\n\n### Immediate Actions (Next 15 minutes)\n[List critical steps to mitigate]\n\n### Short-term Actions (Next 24 hours)\n[List follow-up remediation steps]\n\n### Preventive Measures\n[Suggest ways to prevent recurrence]\n\n## ⚠️ Risk Assessment\n[Rate overall risk and urgency]\n"

/-- The serialized-context segment of the `query` prompt:
`json.dumps(context_data, indent=2, default=str)[:4000]`. -/
def queryContextSegment (serialized : String) : String :=
  pyTrunc serialized 4000

/-- `ai_prompt` built by `DynatraceAgent.query`. -/
def queryPrompt (question serialized : String) : String :=
  "\nQuestion: " ++ question
    ++ "\n\nAvailable Dynatrace Data:\n"
    ++ queryContextSegment serialized
    ++ "\n\nProvide a helpful, conversational answer to the question based on the monitoring data.\nIf the data doesn\x27t contain enough information to fully answer the question,\nexplain what data would be needed and provide what insights you can.\n"

/-- `ai_context` built by `DynatraceAgent.get_health_summary`: the serialized
severity distribution (`json.dumps(severity_counts)`) is interpolated with NO
truncation. -/
def healthSummaryAiContext (openCount releaseCount : Nat)
    (severityJson : String) : String :=
  "\nOpen Problems: " ++ toString openCount
    ++ "\nSeverity Distribution: " ++ severityJson
    ++ "\nRecent Deployments: " ++ toString releaseCount ++ "\n"

/-- Python `sep.join(parts)`. -/
def pyJoin (sep : String) : List String → String
  | [] => ""
  | s :: rest => rest.foldl (fun acc x => acc ++ sep ++ x) s

/-- The final assembly of `DynatraceAgent.analyze_problem`: the base-data
sections, then the AI-analysis header and the `_ai_analyze` result, joined
with newlines. -/
def analyzeProblemRender (baseSections : List String) (aiAnalysis : String) :
    String :=
  pyJoin "\n" (baseSections ++ ["\n## 🤖 AI Analysis\n", aiAnalysis])

/-! ### `DynatraceAgent.query_metrics` (dynatrace_agent.py) -/

/-- `metric_mappings`: friendly metric names to Dynatrace selectors. -/
def metricMappings : List (String × String) :=
  [("cpu", "builtin:host.cpu.usage:avg"),
   ("memory", "builtin:host.mem.usage:avg"),
   ("disk", "builtin:host.disk.usedPct:avg"),
   ("response_time", "builtin:service.response.time:avg"),
   ("error_rate", "builtin:service.errors.total.rate:avg"),
   ("throughput", "builtin:service.requestCount.total:avg"),
   ("availability", "builtin:host.availability:avg"),
   ("network", "builtin:host.net.nic.trafficIn:avg")]

/-- `metric.lower().replace(" ", "_")`. -/
def normalizeMetricName (metric : String) : String :=
  String.mk ((pyLower metric).data.map (fun c => if c = ' ' then '_' else c))

/-- `metric_mappings.get(metric_lower, metric)`. -/
def metricSelectorFor (metric : String) : String :=
  match metricMappings.lookup (normalizeMetricName metric) with
  | some s => s
  | none => metric

/-- `resolution="10m" if time_range in ["1h", "2h"] else "1h"`. -/
def resolutionFor (time_range : String) : String :=
  if time_range = "1h" ∨ time_range = "2h" then "10m" else "1h"

/-- Modelled from the spec (not from code under src/): the spec's time-range
grammar denotes `<n>m` / `<n>h` / `<n>d` windows; this interprets such a token
as a number of minutes, solely to state the spec's "resolution `10m` for
sub-2h windows" reading of `query_metrics` against the code. -/
def specWindowMinutes (s : String) : Option Nat :=
  let ds := s.data.takeWhile Char.isDigit
  if ds.isEmpty then none
  else
    match s.data.dropWhile Char.isDigit with
    | ['m'] => some (digitsToNat ds)
    | ['h'] => some (60 * digitsToNat ds)
    | ['d'] => some (1440 * digitsToNat ds)
    | _ => none

/-! ### `DynatraceClient.get_problem_details` (dynatrace_client.py)

The HTTP layer is abstracted: for a display-format id the function receives
the problem list that the `displayId(...)` selector search returned, and
yields either the raised `ValueError` message or the id used for the
subsequent `/problems/{id}` detail fetch. -/

/-- One record of the selector-search response (only `problemId` matters). -/
structure ProblemStub where
  problemId : Option String

/-- The request parameters of the display-id selector search. -/
structure ProblemSearchParams where
  problemSelector : String
  pageSize : Nat
  fromTime : String

/-- The search request `get_problem_details` issues for a display id. -/
def displaySearchParams (display_id : String) : ProblemSearchParams :=
  { problemSelector := "displayId(\"" ++ display_id ++ "\")"
    pageSize := 1
    fromTime := "now-90d" }

/-- Python falsiness of `problems[0].get("problemId")`: `None` or `""`. -/
def pyFalsyStr (o : Option String) : Bool :=
  match o with
  | none => true
  | some s => s.isEmpty

/-- `DynatraceClient.get_problem_details` control flow: `.ok id` is the id
the detail fetch uses, `.error msg` the raised `ValueError`. -/
def getProblemDetailsFetchId (problem_id : String)
    (searchProblems : List ProblemStub) : Except String String :=
  if pyStartsWith (pyUpper problem_id) "P-" then
    let display_id := pyUpper problem_id
    match searchProblems with
    | [] => .error ("Problem " ++ display_id ++ " not found")
    | p :: _ =>
      match p.problemId with
      | none => .error ("Could not resolve internal ID for " ++ display_id)
      | some internal =>
        if internal.isEmpty then
          .error ("Could not resolve internal ID for " ++ display_id)
        else .ok internal
  else .ok problem_id

/-! ### `DynatraceClient.format_problem_list` (dynatrace_client.py) -/

/-- One problem record as read by the list formatter (absent keys = `none`,
matching `dict.get` defaults). -/
structure ProblemInfo where
  status : Option String
  severityLevel : Option String
  title : Option String
  displayId : Option String

/-- One rendered problem line of `format_problem_list`. -/
def problemLine (p : ProblemInfo) : String :=
  let status := p.status.getD "UNKNOWN"
  let severity := p.severityLevel.getD ""
  let title := p.title.getD "Unknown"
  let displayId := p.displayId.getD ""
  let statusEmoji := if status = "OPEN" then "🔴" else "🟢"
  statusEmoji ++ " **" ++ displayId ++ "** - " ++ title ++ " [" ++ severity ++ "]"

/-- The line list `format_problem_list` builds when `totalCount ≠ 0`. -/
def formatProblemListLines (totalCount : Nat) (problems : List ProblemInfo) :
    List String :=
  (s!"# 🔍 Dynatrace Problems ({totalCount} total)\n"
      :: (problems.take 10).map problemLine)
    ++ (if totalCount > 10
        then [s!"\n... and {totalCount - 10} more problems"]
        else [])

/-- `DynatraceClient.format_problem_list`. -/
def formatProblemList (totalCount : Nat) (problems : List ProblemInfo) : String :=
  if totalCount = 0 then "✅ No problems found in the specified timeframe."
  else pyJoin "\n" (formatProblemListLines totalCount problems)

/-! ### `DynatraceClient.format_metrics_data` (dynatrace_client.py)

Metric values are JSON numbers with possible nulls: `Option ℚ`.  The
`datetime.fromtimestamp(...).strftime(...)` rendering of the latest timestamp
is abstracted as a parameter. -/

/-- Round the fraction `n / d` (with `d ≠ 0`) to the nearest natural number,
ties to even (the rounding of Python's `:.2f` format on an exact value). -/
def roundHalfEvenFrac (n d : Nat) : Nat :=
  let quot := n / d
  let rem := n % d
  if 2 * rem < d then quot
  else if d < 2 * rem then quot + 1
  else if quot % 2 = 0 then quot else quot + 1

/-- Python `f"{x:.2f}"` on an exact value. -/
def fmt2 (q : ℚ) : String :=
  let sign := if q.num < 0 then "-" else ""
  let c := roundHalfEvenFrac (q.num.natAbs * 100) q.den
  let ip := c / 100
  let fp := c % 100
  sign ++ toString ip ++ "." ++ (if fp < 10 then "0" else "") ++ toString fp

/-- One series of a metrics-query result. -/
structure MetricSeries where
  dimensions : List String
  timestamps : List Int
  values : List (Option ℚ)

/-- The `**Range:**` / `**Average:**` lines: aggregates over the non-null
values only (`valid_values = [v for v in values if v is not None]`); no lines
when no valid value exists. -/
def validStats (values : List (Option ℚ)) : List String :=
  match values.filterMap id with
  | [] => []
  | v :: vs =>
    ["**Range:** " ++ fmt2 (vs.foldl min v) ++ " - " ++ fmt2 (vs.foldl max v),
     "**Average:** " ++ fmt2 ((v :: vs).sum / ((v :: vs).length : ℚ))]

/-- The latest-value line (skipped when `values[-1]` is null). -/
def latestLine (timeRender : Int → String) (timestamps : List Int)
    (values : List (Option ℚ)) : List String :=
  let latestTime := match timestamps.getLast? with
    | some t => timeRender t
    | none => ""
  match values.getLast? with
  | some (some v) => ["**Latest (" ++ latestTime ++ "):** " ++ fmt2 v]
  | _ => []

/-- The lines `format_metrics_data` renders for one series. -/
def seriesLines (timeRender : Int → String) (s : MetricSeries) : List String :=
  (if s.dimensions.isEmpty then []
   else ["**Dimensions:** " ++ String.intercalate ", " s.dimensions])
    ++ (if s.values.isEmpty || s.timestamps.isEmpty then []
        else latestLine timeRender s.timestamps s.values ++ validStats s.values)
    ++ [""]

/-! ## Helper lemmas -/

theorem leadMatch_iff : ∀ (n h : List Char), leadMatch n h = true ↔ n <+: h
  | [], h => by simp [leadMatch]
  | x :: xs, [] => by simp [leadMatch]
  | x :: xs, y :: ys => by
      simp [leadMatch, List.cons_prefix_cons, leadMatch_iff xs ys]

theorem subMatch_iff : ∀ (n h : List Char), subMatch n h = true ↔ n <:+: h
  | n, [] => by
      simp [subMatch, List.isEmpty_iff]
  | n, c :: rest => by
      simp [subMatch, leadMatch_iff, subMatch_iff n rest, List.infix_cons_iff]

theorem pyContains_iff (hay needle : String) :
    pyContains hay needle = true ↔ needle.data <:+: hay.data := by
  simp [pyContains, subMatch_iff]

/-- Substring containment composes: if `m` occurs in `n` and `n` occurs in
`hay` then `m` occurs in `hay`. -/
theorem pyContains_trans {hay n m : String}
    (h₁ : pyContains hay n = true) (h₂ : pyContains n m = true) :
    pyContains hay m = true := by
  rw [pyContains_iff] at *
  exact h₂.trans h₁

theorem pyTrunc_length_le (s : String) (k : Nat) : (pyTrunc s k).length ≤ k := by
  show (s.data.take k).length ≤ k
  rw [List.length_take]
  omega

theorem foldl_joinStep_prefix (sep : String) :
    ∀ (ys : List String) (p : String),
      p.data <+: (ys.foldl (fun acc x => acc ++ sep ++ x) p).data := by
  intro ys
  induction ys with
  | nil => intro p; exact List.prefix_refl _
  | cons y ys ih =>
    intro p
    have h₁ : p.data <+: (p ++ sep ++ y).data := by
      simp [String.data_append]
    exact h₁.trans (ih (p ++ sep ++ y))

/-- Joining extra elements on the right only extends the joined string. -/
theorem pyJoin_append_prefix (sep : String) (xs ys : List String) :
    (pyJoin sep xs).data <+: (pyJoin sep (xs ++ ys)).data := by
  cases xs with
  | nil => exact List.nil_prefix
  | cons s rest =>
    show (rest.foldl (fun acc x => acc ++ sep ++ x) s).data <+:
      ((rest ++ ys).foldl (fun acc x => acc ++ sep ++ x) s).data
    rw [List.foldl_append]
    exact foldl_joinStep_prefix sep ys _

/-- If the root-cause phrase set matches and the analyze-problem rule does
not, the cascade returns the root-cause intent. -/
theorem parseIntent_eq_rootCause (q : String)
    (hroot : anyContains (pyStrip (pyLower q)) rootCausePhrases = true)
    (hna : ¬((extractProblemId q).isSome = true ∧
        anyContains (pyStrip (pyLower q)) analysisVerbs = true)) :
    parseIntent q = .rootCauseAnalysis (extractProblemId q)
      (if (extractProblemId q).isSome then none else some q) := by
  unfold parseIntent
  cases hp : extractProblemId q with
  | none =>
    cases hv : anyContains (pyStrip (pyLower q)) analysisVerbs <;> simp [hroot]
  | some p =>
    cases hv : anyContains (pyStrip (pyLower q)) analysisVerbs with
    | true => exact absurd ⟨by simp [hp], hv⟩ hna
    | false => simp [hroot, hv]

/-! ## Claim theorems -/

/-- C1: a query whose lowercased text contains a root-cause phrase and
problem vocabulary but does not satisfy the analyze-problem rule (problem id
plus analysis verb) is classified `root_cause_analysis`, never
`list_problems`; and every query containing a problem identifier together
with `"investigate"` satisfies the analyze-problem rule, which is evaluated
first, so it is classified `analyze_problem`, not `root_cause_analysis`
(e.g. `"investigate P-12345"`). -/
theorem c1_rule_priority :
    (∀ q : String,
        anyContains (pyStrip (pyLower q)) rootCausePhrases = true →
        anyContains (pyStrip (pyLower q)) problemWords = true →
        ¬((extractProblemId q).isSome = true ∧
            anyContains (pyStrip (pyLower q)) analysisVerbs = true) →
        (parseIntent q).skill = "root_cause_analysis" ∧
          (parseIntent q).skill ≠ "list_problems") ∧
    (∀ q : String,
        (extractProblemId q).isSome = true →
        pyContains (pyStrip (pyLower q)) "investigate" = true →
        ∃ p, extractProblemId q = some p ∧
          parseIntent q = Intent.analyzeProblem p ∧
          (parseIntent q).skill = "analyze_problem" ∧
          (parseIntent q).skill ≠ "root_cause_analysis") ∧
    parseIntent "investigate P-12345" = Intent.analyzeProblem "P-12345" := by
  refine ⟨?_, ?_, by decide⟩
  · intro q hroot _hprob hna
    rw [parseIntent_eq_rootCause q hroot hna]
    have hne : ("root_cause_analysis" : String) ≠ "list_problems" := by decide
    exact ⟨rfl, hne⟩
  · intro q hpid hinv
    cases hp : extractProblemId q with
    | none => rw [hp] at hpid; simp at hpid
    | some p =>
      have hverb : anyContains (pyStrip (pyLower q)) analysisVerbs = true := by
        simp only [anyContains, List.any_eq_true]
        exact ⟨"investigate", by simp [analysisVerbs], hinv⟩
      have hi : parseIntent q = Intent.analyzeProblem p := by
        unfold parseIntent
        simp [hp, hverb]
      have hne : ("analyze_problem" : String) ≠ "root_cause_analysis" := by
        decide
      exact ⟨p, rfl, hi, by rw [hi]; rfl, by rw [hi]; exact hne⟩

/-- C1 witness: `"why is there a problem"` contains the root-cause phrase
`"why is"` and the problem word `"problem"`, has no problem id, and resolves
to `root_cause_analysis`; `"investigate P-12345"` contains a problem
identifier together with `"investigate"` and resolves to `analyze_problem`. -/
theorem c1_witness :
    ((parseIntent "why is there a problem").skill = "root_cause_analysis" ∧
      (parseIntent "why is there a problem").skill ≠ "list_problems") ∧
    (∃ p, extractProblemId "investigate P-12345" = some p ∧
      parseIntent "investigate P-12345" = Intent.analyzeProblem p ∧
      (parseIntent "investigate P-12345").skill = "analyze_problem" ∧
      (parseIntent "investigate P-12345").skill ≠ "root_cause_analysis") :=
  ⟨c1_rule_priority.1 "why is there a problem" (by decide) (by decide)
     (by decide),
   c1_rule_priority.2.1 "investigate P-12345" (by decide) (by decide)⟩

/-- C2: `"Show me open problems from last 24 hours"` is classified
`list_problems` with `status = OPEN`, `severity` unset, `time_range = 24h`. -/
theorem c2_end_to_end :
    parseIntent "Show me open problems from last 24 hours" =
      Intent.listProblems (some "OPEN") none "24h" := by
  decide

/-- C3: time-range extraction maps `"last 2 hours"` and `"past 2 hours"` to
`"2h"` and `"last 1 week"` to `"7d"` (weeks times 7 into days); matching is
case-insensitive; pattern order is a fixed priority rather than first
textual occurrence (`"2 days ago last 3 hours"` gives `"3h"`); and any query
matching none of the nine patterns defaults to `"24h"`. -/
theorem c3_time_range_extraction :
    extractTimeRange "last 2 hours" = "2h" ∧
    extractTimeRange "past 2 hours" = "2h" ∧
    extractTimeRange "LAST 2 hOuRs" = "2h" ∧
    extractTimeRange "last 1 week" = "7d" ∧
    extractTimeRange "2 days ago last 3 hours" = "3h" ∧
    (∀ q : String,
        searchPlain (matchUnitNum "last" 'h') (pyLower q).data = none →
        searchPlain (matchUnitNum "last" 'd') (pyLower q).data = none →
        searchPlain (matchUnitNum "last" 'w') (pyLower q).data = none →
        searchPlain (matchUnitNum "past" 'h') (pyLower q).data = none →
        searchPlain (matchUnitNum "past" 'd') (pyLower q).data = none →
        searchPlain (matchAgo 'h' "our") (pyLower q).data = none →
        searchPlain (matchAgo 'd' "ay") (pyLower q).data = none →
        searchPlain matchToday (pyLower q).data = none →
        searchPlain matchThisWeek (pyLower q).data = none →
        extractTimeRange q = "24h") := by
  refine ⟨by decide, by decide, by decide, by decide, by decide, ?_⟩
  intro q h1 h2 h3 h4 h5 h6 h7 h8 h9
  simp [extractTimeRange, h1, h2, h3, h4, h5, h6, h7, h8, h9]

/-- C3 witness: `"hello"` matches none of the nine patterns and defaults to
`"24h"`. -/
theorem c3_witness : extractTimeRange "hello" = "24h" :=
  c3_time_range_extraction.2.2.2.2.2 "hello" (by decide) (by decide) (by decide)
    (by decide) (by decide) (by decide) (by decide) (by decide) (by decide)

/-- C4 counterexample: `analyze_problem` interpolates the serialized evidence
into its AI context without any truncation, so a 4001-character evidence
serialization already drives the context past the claimed 4000-character
budget. -/
theorem c4_counterexample :
    4000 < (analyzeProblemAiContext "Unknown" "Unknown" "Unknown" 0 3
      (some (String.mk (List.replicate 4001 'x')))).length := by
  have h1 : (String.mk (List.replicate 4001 'x')).length = 4001 := by
    show (List.replicate 4001 'x').length = 4001
    rw [List.length_replicate]
  simp only [analyzeProblemAiContext, Option.getD, String.length_append, h1]
  omega

/-- C4 amended: only `root_cause_analysis` and `query` truncate their
serialized context to at most 4000 characters; `analyze_problem` and
`get_health_summary` interpolate their context without that truncation, so
those contexts can exceed 4000 characters. -/
theorem c4_amended_truncation :
    (∀ s : String, (rcaContextSegment s).length ≤ 4000) ∧
    (∀ s : String, (queryContextSegment s).length ≤ 4000) ∧
    (∃ evidenceJson : String,
        4000 < (analyzeProblemAiContext "Unknown" "Unknown" "Unknown" 0 3
          (some evidenceJson)).length) ∧
    (∃ severityJson : String,
        4000 < (healthSummaryAiContext 0 0 severityJson).length) := by
  refine ⟨fun s => pyTrunc_length_le s 4000, fun s => pyTrunc_length_le s 4000,
    ⟨String.mk (List.replicate 4001 'a'), ?_⟩,
    ⟨String.mk (List.replicate 4100 'b'), ?_⟩⟩
  · have h1 : (String.mk (List.replicate 4001 'a')).length = 4001 := by
      show (List.replicate 4001 'a').length = 4001
      rw [List.length_replicate]
    simp only [analyzeProblemAiContext, Option.getD, String.length_append, h1]
    omega
  · have h1 : (String.mk (List.replicate 4100 'b')).length = 4100 := by
      show (List.replicate 4100 'b').length = 4100
      rw [List.length_replicate]
    simp only [healthSummaryAiContext, String.length_append, h1]
    omega

/-- C5 counterexample: `"90m"` denotes a 90-minute window (shorter than 2
hours), yet `query_metrics` picks resolution `"1h"`, not `"10m"`: the code
tests literal membership in `["1h", "2h"]`, not window length. -/
theorem c5_counterexample :
    specWindowMinutes "90m" = some 90 ∧ 90 < 120 ∧
    resolutionFor "90m" = "1h" ∧ resolutionFor "90m" ≠ "10m" := by
  decide

/-- C5 amended: the eight friendly metric names (after lowercasing and
space-to-underscore normalization) map to their fixed Dynatrace selectors,
any name outside the table passes through verbatim, and the resolution is
`"10m"` exactly when the time-range string is `"1h"` or `"2h"`, else
`"1h"`. -/
theorem c5_metric_mapping_resolution :
    (metricSelectorFor "cpu" = "builtin:host.cpu.usage:avg" ∧
     metricSelectorFor "memory" = "builtin:host.mem.usage:avg" ∧
     metricSelectorFor "disk" = "builtin:host.disk.usedPct:avg" ∧
     metricSelectorFor "response_time" = "builtin:service.response.time:avg" ∧
     metricSelectorFor "error_rate" = "builtin:service.errors.total.rate:avg" ∧
     metricSelectorFor "throughput" = "builtin:service.requestCount.total:avg" ∧
     metricSelectorFor "availability" = "builtin:host.availability:avg" ∧
     metricSelectorFor "network" = "builtin:host.net.nic.trafficIn:avg" ∧
     metricSelectorFor "Response Time" = "builtin:service.response.time:avg") ∧
    (∀ m : String, metricMappings.lookup (normalizeMetricName m) = none →
        metricSelectorFor m = m) ∧
    (∀ tr : String, resolutionFor tr = "10m" ↔ (tr = "1h" ∨ tr = "2h")) := by
  refine ⟨by decide, ?_, ?_⟩
  · intro m h
    simp [metricSelectorFor, h]
  · intro tr
    by_cases h : tr = "1h" ∨ tr = "2h"
    · simp [resolutionFor, h]
    · have hr : resolutionFor tr = "1h" := by simp [resolutionFor, h]
      rw [hr]
      constructor
      · intro hc; exact absurd hc (by decide)
      · intro hc; exact absurd hc h

/-- C5 witness: an unmapped metric name passes through verbatim, and the
`"1h"` window gets resolution `"10m"`. -/
theorem c5_witness :
    metricSelectorFor "custom.metric" = "custom.metric" ∧
      resolutionFor "1h" = "10m" :=
  ⟨c5_metric_mapping_resolution.2.1 "custom.metric" (by decide),
   (c5_metric_mapping_resolution.2.2 "1h").mpr (Or.inl rfl)⟩

/-- C6: for an identifier with the `P-` display prefix, `get_problem_details`
first runs the selector search over a 90-day window; zero matches, or a match
whose `problemId` is missing or empty, raise a not-found error and nothing is
ever fetched with the display string; a successful resolution fetches exactly
the internal id of the first matching record; identifiers not in display
format are fetched directly. -/
theorem c6_display_id_resolution :
    (∀ pid : String, pyStartsWith (pyUpper pid) "P-" = true →
        getProblemDetailsFetchId pid [] =
          Except.error ("Problem " ++ pyUpper pid ++ " not found")) ∧
    (∀ (pid : String) (p : ProblemStub) (rest : List ProblemStub),
        pyStartsWith (pyUpper pid) "P-" = true →
        pyFalsyStr p.problemId = true →
        getProblemDetailsFetchId pid (p :: rest) =
          Except.error ("Could not resolve internal ID for " ++ pyUpper pid)) ∧
    (∀ (pid : String) (ps : List ProblemStub) (fid : String),
        pyStartsWith (pyUpper pid) "P-" = true →
        getProblemDetailsFetchId pid ps = Except.ok fid →
        ∃ p rest, ps = p :: rest ∧ p.problemId = some fid) ∧
    (∀ (pid : String) (ps : List ProblemStub),
        pyStartsWith (pyUpper pid) "P-" = false →
        getProblemDetailsFetchId pid ps = Except.ok pid) ∧
    (∀ d : String, (displaySearchParams d).fromTime = "now-90d" ∧
        (displaySearchParams d).pageSize = 1 ∧
        (displaySearchParams d).problemSelector = "displayId(\"" ++ d ++ "\")") := by
  refine ⟨?_, ?_, ?_, ?_, fun d => ⟨rfl, rfl, rfl⟩⟩
  · intro pid h
    simp [getProblemDetailsFetchId, h]
  · intro pid p rest h hf
    cases hP : p.problemId with
    | none => simp [getProblemDetailsFetchId, h, hP]
    | some s =>
      rw [hP] at hf
      simp [pyFalsyStr] at hf
      simp [getProblemDetailsFetchId, h, hP, hf]
  · intro pid ps fid h hok
    simp only [getProblemDetailsFetchId, h, if_true] at hok
    cases ps with
    | nil => simp at hok
    | cons p rest =>
      cases hP : p.problemId with
      | none => simp [hP] at hok
      | some s =>
        by_cases hie : s.isEmpty
        · simp [hP, hie] at hok
        · simp [hP, hie] at hok
          exact ⟨p, rest, rfl, by rw [hP, hok]⟩
  · intro pid ps h
    simp [getProblemDetailsFetchId, h]

/-- C6 witness: `"P-99999"` with zero matching records raises not-found. -/
theorem c6_witness :
    getProblemDetailsFetchId "P-99999" [] =
      Except.error "Problem P-99999 not found" := by
  have h := c6_display_id_resolution.1 "P-99999" (by decide)
  have he : ("Problem " ++ pyUpper "P-99999" ++ " not found") =
      "Problem P-99999 not found" := by decide
  rw [he] at h
  exact h

/-- C7: `_ai_analyze` returns a string on every outcome assignment: if all
models rate-limit it returns the soft notice; a non-rate-limit failure
returns the explanatory placeholder with the error message truncated to 100
characters (so at most 119 characters in total); a rate-limit failure on a
model other than the last retries the rest of the fallback list; a rate-limit
failure on the last model yields the notice; and whatever string the
augmenter returns, the surrounding `analyze_problem` report still starts with
its base data sections. -/
theorem c7_failure_policy :
    (∀ (primary : String) (f : String → LlmOutcome),
        (∀ m, ∃ e, f m = LlmOutcome.failure e ∧ isRateLimitError e = true) →
        aiAnalyze primary f = rateLimitNotice) ∧
    (∀ (last : String) (f : String → LlmOutcome) (m : String)
        (rest : List String) (e : String),
        f m = LlmOutcome.failure e → isRateLimitError e = false →
        aiAnalyzeLoop last f (m :: rest) =
          "AI analysis error: " ++ pyTrunc e 100) ∧
    (∀ e : String, ("AI analysis error: " ++ pyTrunc e 100).length ≤ 119) ∧
    (∀ (last : String) (f : String → LlmOutcome) (m : String)
        (rest : List String) (e : String),
        f m = LlmOutcome.failure e → isRateLimitError e = true → m ≠ last →
        aiAnalyzeLoop last f (m :: rest) = aiAnalyzeLoop last f rest) ∧
    (∀ (last : String) (f : String → LlmOutcome) (rest : List String)
        (e : String),
        f last = LlmOutcome.failure e → isRateLimitError e = true →
        aiAnalyzeLoop last f (last :: rest) = rateLimitNotice) ∧
    (∀ (baseSections : List String) (ai : String),
        (pyJoin "\n" baseSections).data <+:
          (analyzeProblemRender baseSections ai).data) := by
  have hfp : ("gemini-1.5-flash" : String) ≠ "gemini-1.5-pro" := by decide
  refine ⟨?_, ?_, ?_, ?_, ?_, ?_⟩
  · intro primary f h
    obtain ⟨e1, he1, hr1⟩ := h primary
    obtain ⟨e2, he2, hr2⟩ := h "gemini-1.5-flash"
    obtain ⟨e3, he3, hr3⟩ := h "gemini-1.5-pro"
    by_cases hp : primary = "gemini-1.5-pro"
    · subst hp
      simp [aiAnalyze, modelsToTry, aiAnalyzeLoop, he1, hr1]
    · simp [aiAnalyze, modelsToTry, aiAnalyzeLoop, he1, hr1, he2, hr2, he3,
        hr3, hp, hfp]
  · intro last f m rest e he hr
    simp [aiAnalyzeLoop, he, hr]
  · intro e
    rw [String.length_append]
    have := pyTrunc_length_le e 100
    have hl : ("AI analysis error: " : String).length = 19 := by decide
    omega
  · intro last f m rest e he hr hm
    simp [aiAnalyzeLoop, he, hr, hm]
  · intro last f rest e he hr
    simp [aiAnalyzeLoop, he, hr]
  · intro baseSections ai
    exact pyJoin_append_prefix "\n" baseSections ["\n## 🤖 AI Analysis\n", ai]

/-- C7 witness: every model rate-limited yields the soft notice, and a
non-rate-limit failure yields the truncated placeholder. -/
theorem c7_witness :
    aiAnalyze "gemini-1.5-flash" (fun _ => LlmOutcome.failure "429") =
        rateLimitNotice ∧
      aiAnalyzeLoop "gemini-1.5-pro" (fun _ => LlmOutcome.failure "boom")
          ["gemini-1.5-flash"] = "AI analysis error: " ++ pyTrunc "boom" 100 :=
  ⟨c7_failure_policy.1 "gemini-1.5-flash" _ (fun _ => ⟨"429", rfl, by decide⟩),
   c7_failure_policy.2.1 "gemini-1.5-pro" _ "gemini-1.5-flash" [] "boom" rfl
     (by decide)⟩

/-- C8: a response with `totalCount = 0` yields the fixed no-problems message
(whatever the problem list holds, so no truncation logic runs), and a
response with `totalCount = 15` and 15 problems renders the header, exactly
10 problem lines, and the suffix `"... and 5 more problems"`. -/
theorem c8_problem_list_formatting :
    (∀ ps : List ProblemInfo,
        formatProblemList 0 ps =
          "✅ No problems found in the specified timeframe.") ∧
    (∀ ps : List ProblemInfo, ps.length = 15 →
        formatProblemListLines 15 ps =
          ("# 🔍 Dynatrace Problems (15 total)\n"
              :: (ps.take 10).map problemLine)
            ++ ["\n... and 5 more problems"] ∧
        ((ps.take 10).map problemLine).length = 10) := by
  constructor
  · intro ps
    simp [formatProblemList]
  · intro ps h
    constructor
    · rfl
    · rw [List.length_map, List.length_take, h]
      decide

/-- C8 witness: a concrete 15-problem response renders 10 lines plus the
`"... and 5 more problems"` suffix. -/
theorem c8_witness :
    formatProblemListLines 15
        (List.replicate 15 (⟨none, none, none, none⟩ : ProblemInfo)) =
      ("# 🔍 Dynatrace Problems (15 total)\n"
          :: ((List.replicate 15 (⟨none, none, none, none⟩ : ProblemInfo)).take
              10).map problemLine)
        ++ ["\n... and 5 more problems"] ∧
    (((List.replicate 15 (⟨none, none, none, none⟩ : ProblemInfo)).take
        10).map problemLine).length = 10 :=
  c8_problem_list_formatting.2
    (List.replicate 15 (⟨none, none, none, none⟩ : ProblemInfo)) (by decide)

/-- C9: the metric formatter computes min, max, and arithmetic mean over the
non-null values only: the series `[10, null, 20]` renders range
`"10.00 - 20.00"` and average `"15.00"`; inserting a null anywhere leaves the
range/average lines unchanged; and those lines appear in the rendered series
output whenever the series has values and timestamps. -/
theorem c9_metric_null_exclusion :
    validStats [some 10, none, some 20] =
      ["**Range:** 10.00 - 20.00", "**Average:** 15.00"] ∧
    (∀ xs ys : List (Option ℚ),
        validStats (xs ++ none :: ys) = validStats (xs ++ ys)) ∧
    (∀ (tr : Int → String) (s : MetricSeries),
        s.values.isEmpty = false → s.timestamps.isEmpty = false →
        ∀ l ∈ validStats s.values, l ∈ seriesLines tr s) := by
  refine ⟨?_, ?_, ?_⟩
  · have hf : List.filterMap id [some (10 : ℚ), none, some 20] = [10, 20] := rfl
    have hmin : List.foldl min (10 : ℚ) [20] = 10 := by
      simp only [List.foldl]
      exact min_eq_left (by norm_num)
    have hmax : List.foldl max (10 : ℚ) [20] = 20 := by
      simp only [List.foldl]
      exact max_eq_right (by norm_num)
    have havg : ((10 : ℚ) :: [20]).sum / (((10 : ℚ) :: [20]).length : ℚ) = 15 := by
      simp [List.sum_cons, List.sum_nil]
      norm_num
    simp only [validStats, hf, hmin, hmax, havg]
    decide
  · intro xs ys
    have h : (xs ++ none :: ys).filterMap (id : Option ℚ → Option ℚ) =
        (xs ++ ys).filterMap id := by
      simp
    simp only [validStats, h]
  · intro tr s h1 h2 l hl
    simp [seriesLines, h1, h2, List.mem_append]
    tauto

/-- C9 witness: the range line of the single-value series `[1]` appears in
the rendered series output. -/
theorem c9_witness :
    "**Range:** 1.00 - 1.00" ∈
      seriesLines (fun _ => "") ⟨[], [0], [some 1]⟩ :=
  c9_metric_null_exclusion.2.2 (fun _ => "") ⟨[], [0], [some 1]⟩ rfl rfl
    "**Range:** 1.00 - 1.00" (by decide)

/-- C10: keyword tests are plain substring containment on the lowercased
query with no word-boundary check: a query containing `"orcas"` (which
contains `"rca"`) that does not satisfy the analyze-problem rule classifies
as `root_cause_analysis`, and any text containing `"whatever"` satisfies the
analysis-verb test via its substring `"what"`. -/
theorem c10_substring_matching :
    (∀ q : String, pyContains (pyStrip (pyLower q)) "orcas" = true →
        ¬((extractProblemId q).isSome = true ∧
            anyContains (pyStrip (pyLower q)) analysisVerbs = true) →
        (parseIntent q).skill = "root_cause_analysis") ∧
    (∀ s : String, pyContains s "whatever" = true →
        anyContains s analysisVerbs = true) := by
  constructor
  · intro q ho hna
    have hrca : pyContains (pyStrip (pyLower q)) "rca" = true :=
      pyContains_trans ho (by decide)
    have hroot : anyContains (pyStrip (pyLower q)) rootCausePhrases = true := by
      simp only [anyContains, List.any_eq_true]
      exact ⟨"rca", by simp [rootCausePhrases], hrca⟩
    rw [parseIntent_eq_rootCause q hroot hna]
    rfl
  · intro s hw
    have hwhat : pyContains s "what" = true :=
      pyContains_trans hw (by decide)
    simp only [anyContains, List.any_eq_true]
    exact ⟨"what", by simp [analysisVerbs], hwhat⟩

/-- C10 witness: `"orcas swimming"` classifies as root-cause analysis, and
`"whatever happened"` passes the analysis-verb test. -/
theorem c10_witness :
    (parseIntent "orcas swimming").skill = "root_cause_analysis" ∧
      anyContains "whatever happened" analysisVerbs = true :=
  ⟨c10_substring_matching.1 "orcas swimming" (by decide) (by decide),
   c10_substring_matching.2 "whatever happened" (by decide)⟩

end A2ADynatrace
